import Mathlib

/-!
Verification of the retrieval-and-generation pipeline of the Autonomous QA
Agent repository. Each Python function relevant to the claims is shallowly
embedded as an executable Lean definition, translated from the source files
`selenium_generator.py`, `document_processor.py` and `vector_store.py`.
External libraries (BeautifulSoup, langchain's text splitter, the Qdrant
client, the sentence-transformer encoder, the HTTP stack) are modelled as
parameters or explicit outcome data, so that the repository's own control
flow is what the theorems are about.
-/

/-- Boolean substring test, the embedding of Python's `needle in hay`
operator on strings. -/
def strContains (hay needle : String) : Bool :=
  decide (needle.data <:+: hay.data)

/-- Validation report returned by `SeleniumScriptGenerator.validate_script`
on the normal path: the dict with keys `valid`, `warnings`, `errors`
(selenium_generator.py lines 228-232). -/
structure ValidationReport where
  valid : Bool
  warnings : List String
  errors : List String
deriving DecidableEq

/-- Embedding of `SeleniumScriptGenerator.validate_script`
(selenium_generator.py lines 222-249, the body of the `try`).
The warning loop over `required_imports`, the `any` test over
`required_methods` driving `valid`/`errors`, and the final
`try:`/`except` warning are translated directly. -/
def validate_script (script : String) : ValidationReport :=
  let required_imports := ["selenium", "webdriver", "WebDriverWait"]
  let required_methods := ["find_element", "click", "send_keys"]
  let importWarnings := required_imports.filterMap fun imp =>
    if strContains script imp then none else some ("Missing import: " ++ imp)
  let has_methods := required_methods.any fun m => strContains script m
  let errors := if has_methods then [] else ["No Selenium methods found"]
  let warnings :=
    if strContains script "try:" && strContains script "except" then importWarnings
    else importWarnings ++ ["Missing error handling"]
  { valid := has_methods, warnings := warnings, errors := errors }

/-- Report returned by the `except` handler of `validate_script`
(selenium_generator.py lines 250-255): a dict holding only the keys
`valid` (False) and `errors` (the single exception message). -/
structure ExceptionValidationReport where
  valid : Bool
  errors : List String
deriving DecidableEq

/-- Embedding of the `except` branch of `validate_script`: given the
string rendering of the caught exception it returns
`{valid: False, errors: [msg]}`. -/
def validate_script_on_exception (msg : String) : ExceptionValidationReport :=
  { valid := false, errors := [msg] }

/-- Chunk metadata as produced by `DocumentProcessor.chunk_text`: the
base metadata dict spread with `chunk_id` and `total_chunks`.
The base metadata is abstract (`μ`). -/
structure ChunkMeta (μ : Type) where
  base : μ
  chunk_id : Nat
  total_chunks : Nat
deriving DecidableEq

/-- Document chunk: the dict `{content, metadata}` built by
`DocumentProcessor.chunk_text`. -/
structure Chunk (μ : Type) where
  content : String
  metadata : ChunkMeta μ
deriving DecidableEq

/-- Embedding of `DocumentProcessor.chunk_text` (document_processor.py
lines 118-139). The langchain `RecursiveCharacterTextSplitter.split_text`
is an external library call, passed in as the parameter `split_text`;
the enumeration loop attaching `chunk_id := i` and
`total_chunks := len(chunks)` is translated directly. -/
def chunk_text {μ : Type} (split_text : String → List String)
    (text : String) (metadata : μ) : List (Chunk μ) :=
  let chunks := split_text text
  chunks.enum.map fun ic =>
    { content := ic.2
      metadata := { base := metadata, chunk_id := ic.1, total_chunks := chunks.length } }

/-- Embedding of `DocumentProcessor._extract_html` (document_processor.py
lines 90-116) after the file read succeeded. BeautifulSoup parsing is
external: `title` is the stripped text of the `<title>` element when one
is present, and `page_text` is `soup.get_text(separator='\n', strip=True)`.
The `text_parts` list construction and the final `'\n'.join` are
translated directly; `html_content` is the raw markup that was read. -/
def extract_html_file_text (title : Option String) (page_text html_content : String) : String :=
  let text_parts : List String :=
    (match title with
     | some t => ["Title: " ++ t]
     | none => []) ++
    ["\nContent:", page_text, "\n--- HTML Structure ---", html_content]
  String.intercalate "\n" text_parts

example : validate_script "x" =
    { valid := false
      warnings := ["Missing import: selenium", "Missing import: webdriver",
                   "Missing import: WebDriverWait", "Missing error handling"]
      errors := ["No Selenium methods found"] } := by decide

example : (validate_script "import selenium click try: except").valid = true := by decide

/-- Claim C1: for every script, `validate_script` reports `valid = false`
with at least one error exactly when none of the interaction-method
substrings `find_element`, `click`, `send_keys` occurs in the script; and
a script containing at least one of them but lacking `try:` or lacking
`except` is reported `valid = true` with the missing-error-handling
warning present (so at least one warning). -/
theorem validate_script_claim (script : String) :
    (((validate_script script).valid = false ∧ (validate_script script).errors ≠ []) ↔
      (strContains script "find_element" = false ∧ strContains script "click" = false ∧
        strContains script "send_keys" = false)) ∧
    ((strContains script "find_element" = true ∨ strContains script "click" = true ∨
        strContains script "send_keys" = true) →
      (strContains script "try:" = false ∨ strContains script "except" = false) →
      ((validate_script script).valid = true ∧
        "Missing error handling" ∈ (validate_script script).warnings)) := by
  cases h1 : strContains script "find_element" <;>
    cases h2 : strContains script "click" <;>
      cases h3 : strContains script "send_keys" <;>
        cases h4 : strContains script "try:" <;>
          cases h5 : strContains script "except" <;>
            simp_all [validate_script]

/-- Witness for C1: the one-word script `find_element` contains an
interaction method but no `try:`/`except`, hence is valid with the
missing-error-handling warning. -/
theorem validate_script_claim_witness :
    (validate_script "find_element").valid = true ∧
      "Missing error handling" ∈ (validate_script "find_element").warnings :=
  (validate_script_claim "find_element").2 (Or.inl (by decide)) (Or.inl (by decide))

/-- Claim C10: on the normal path and on the internal-exception path of
`validate_script`, the report satisfies `valid = false` exactly when the
errors list is non-empty. -/
theorem validate_script_valid_iff_errors (script msg : String) :
    ((validate_script script).valid = false ↔ (validate_script script).errors ≠ []) ∧
    ((validate_script_on_exception msg).valid = false ↔
      (validate_script_on_exception msg).errors ≠ []) := by
  constructor
  · cases h : (["find_element", "click", "send_keys"].any fun m => strContains script m) <;>
      simp [validate_script, h]
  · simp [validate_script_on_exception]

/-- Claim C2: `chunk_text` assigns `chunk_id` values that are exactly the
contiguous sequence `0 .. total_chunks - 1` in order, and every chunk's
`total_chunks` field equals the length of the returned list. -/
theorem chunk_text_claim {μ : Type} (split_text : String → List String)
    (text : String) (metadata : μ) :
    ((chunk_text split_text text metadata).map (fun c => c.metadata.chunk_id) =
      List.range (chunk_text split_text text metadata).length) ∧
    (∀ c ∈ chunk_text split_text text metadata,
      c.metadata.total_chunks = (chunk_text split_text text metadata).length) := by
  have hlen : (chunk_text split_text text metadata).length = (split_text text).length := by
    simp [chunk_text, List.enum_length]
  constructor
  · rw [hlen]
    show ((split_text text).enum.map _).map _ = _
    rw [List.map_map]
    have hcomp : ((fun c : Chunk μ => c.metadata.chunk_id) ∘ fun ic : Nat × String =>
        ({ content := ic.2,
           metadata := { base := metadata, chunk_id := ic.1,
                         total_chunks := (split_text text).length } } : Chunk μ)) =
        Prod.fst := rfl
    rw [hcomp, List.enum_map_fst]
  · intro c hc
    unfold chunk_text at hc ⊢
    simp only [List.mem_map] at hc
    obtain ⟨ic, _, rfl⟩ := hc
    simp [List.enum_length]

/-- Witness for C2: a splitter producing two pieces yields chunk ids 0,1
and both chunks carry `total_chunks = 2`. -/
theorem chunk_text_claim_witness :
    ((chunk_text (fun _ => ["al", "pha"]) "alpha" 0).map (fun c => c.metadata.chunk_id) =
      List.range (chunk_text (fun _ => ["al", "pha"]) "alpha" 0).length) ∧
    (⟨"al", 0, 0, 2⟩ : Chunk Nat).metadata.total_chunks =
      (chunk_text (fun _ => ["al", "pha"]) "alpha" 0).length :=
  ⟨(chunk_text_claim (fun _ => ["al", "pha"]) "alpha" 0).1,
    (chunk_text_claim (fun _ => ["al", "pha"]) "alpha" 0).2 ⟨"al", 0, 0, 2⟩ (by decide)⟩

/-- Claim C5: for every successfully read HTML file, the extracted text
is, in order: the document title when a `<title>` element is present,
then the visible text content (under a `Content:` heading), then the
delimiter line `--- HTML Structure ---`, then a verbatim copy of the
original markup string. -/
theorem extract_html_file_text_claim (page_text html_content : String) :
    (∀ t, extract_html_file_text (some t) page_text html_content =
      "Title: " ++ t ++ "\n" ++ "\nContent:" ++ "\n" ++ page_text ++ "\n" ++
        "\n--- HTML Structure ---" ++ "\n" ++ html_content) ∧
    (extract_html_file_text none page_text html_content =
      "\nContent:" ++ "\n" ++ page_text ++ "\n" ++
        "\n--- HTML Structure ---" ++ "\n" ++ html_content) := by
  constructor
  · intro t
    simp [extract_html_file_text, String.intercalate, String.intercalate.go,
      String.append_assoc]
  · simp [extract_html_file_text, String.intercalate, String.intercalate.go,
      String.append_assoc]

/-- Parsed HTML element as delivered by BeautifulSoup: tag name,
string-valued attributes, the multi-valued `class` attribute (a list of
class names when the attribute is present), the element's stripped text
content (`get_text(strip=True)`), and child elements. BeautifulSoup
itself is an external library; this is its parse-tree output. -/
inductive Elem : Type where
  | mk (tag : String) (attrs : List (String × String))
       (classes : Option (List String)) (text : String)
       (children : List Elem)

/-- Tag name of an element. -/
def Elem.tag : Elem → String
  | .mk t _ _ _ _ => t

/-- String-valued attributes of an element. -/
def Elem.attrs : Elem → List (String × String)
  | .mk _ a _ _ _ => a

/-- Value of the `class` attribute, when present. -/
def Elem.classes : Elem → Option (List String)
  | .mk _ _ c _ _ => c

/-- Stripped text content of an element, `get_text(strip=True)`. -/
def Elem.text : Elem → String
  | .mk _ _ _ x _ => x

/-- Child elements of an element. -/
def Elem.children : Elem → List Elem
  | .mk _ _ _ _ ch => ch

/-- Embedding of BeautifulSoup's attribute access `elem.get(key, dflt)`
for string-valued attributes. -/
def Elem.getAttr (e : Elem) (key dflt : String) : String :=
  (e.attrs.lookup key).getD dflt

/-- Embedding of `elem.get(key)` with no default: `None` when absent. -/
def Elem.getAttrOpt (e : Elem) (key : String) : Option String :=
  e.attrs.lookup key

/-- Embedding of `elem.get('class', [])`: the class-name list, empty when
the attribute is absent. -/
def Elem.getClasses (e : Elem) : List String :=
  e.classes.getD []

/-- All elements of a forest in document (preorder) order, each root
included: the search space of BeautifulSoup's `find_all`. -/
def allElems : List Elem → List Elem
  | [] => []
  | .mk t a c x ch :: rest =>
      .mk t a c x ch :: (allElems ch ++ allElems rest)

/-- Embedding of `soup.find_all(names)`: all elements of the parse tree
whose tag name is among `names`, in document order. -/
def find_all (names : List String) (soup : List Elem) : List Elem :=
  (allElems soup).filter fun e => names.contains e.tag

/-- Embedding of `elem.find_all(names)`: the matching descendants of one
element. -/
def elemFindAll (names : List String) (e : Elem) : List Elem :=
  (allElems e.children).filter fun d => names.contains d.tag

/-- Form descriptor dict (selenium_generator.py lines 31-36). -/
structure FormDesc where
  id : String
  name : String
  classes : List String
  action : String
deriving DecidableEq

/-- Button descriptor dict (selenium_generator.py lines 42-48); the
`type` key is `type_attr` because `type` is reserved in Lean. -/
structure ButtonDesc where
  id : String
  name : String
  classes : List String
  text : String
  type_attr : String
deriving DecidableEq

/-- Input descriptor dict (selenium_generator.py lines 52-58). -/
structure InputDesc where
  id : String
  name : String
  classes : List String
  type_attr : String
  placeholder : String
deriving DecidableEq

/-- Select descriptor dict (selenium_generator.py lines 63-68). -/
structure SelectDesc where
  id : String
  name : String
  classes : List String
  options : List String
deriving DecidableEq

/-- Link descriptor dict (selenium_generator.py lines 72-77). -/
structure LinkDesc where
  id : String
  classes : List String
  text : String
  href : String
deriving DecidableEq

/-- Structure dict returned by `extract_html_structure`
(selenium_generator.py lines 21-27). -/
structure HtmlStructure where
  forms : List FormDesc
  buttons : List ButtonDesc
  inputs : List InputDesc
  selects : List SelectDesc
  links : List LinkDesc
deriving DecidableEq

/-- Form-descriptor construction from one element (lines 31-36). -/
def formDesc (e : Elem) : FormDesc :=
  { id := e.getAttr "id" "", name := e.getAttr "name" "",
    classes := e.getClasses, action := e.getAttr "action" "" }

/-- Button-descriptor construction from one element (lines 42-48):
`text` is the element's text for a `<button>`, else its `value`
attribute. -/
def buttonDesc (e : Elem) : ButtonDesc :=
  { id := e.getAttr "id" "", name := e.getAttr "name" "",
    classes := e.getClasses,
    text := if e.tag = "button" then e.text else e.getAttr "value" "",
    type_attr := e.getAttr "type" "" }

/-- Input-descriptor construction from one element (lines 52-58); the
`type` lookup defaults to `text`. -/
def inputDesc (e : Elem) : InputDesc :=
  { id := e.getAttr "id" "", name := e.getAttr "name" "",
    classes := e.getClasses, type_attr := e.getAttr "type" "text",
    placeholder := e.getAttr "placeholder" "" }

/-- Select-descriptor construction from one element (lines 61-68):
options are the stripped texts of descendant `<option>` elements. -/
def selectDesc (e : Elem) : SelectDesc :=
  { id := e.getAttr "id" "", name := e.getAttr "name" "",
    classes := e.getClasses,
    options := (elemFindAll ["option"] e).map Elem.text }

/-- Link-descriptor construction from one element (lines 72-77). -/
def linkDesc (e : Elem) : LinkDesc :=
  { id := e.getAttr "id" "", classes := e.getClasses,
    text := e.text, href := e.getAttr "href" "" }

/-- Embedding of `SeleniumScriptGenerator.extract_html_structure`
(selenium_generator.py lines 16-79, the body of the `try`): one
`find_all` pass per category; in the button pass an `<input>` whose
`type` attribute is not `button` and not `submit` (including an absent
`type`, where `get` yields `None`) is skipped by `continue`. -/
def extract_html_structure (soup : List Elem) : HtmlStructure :=
  { forms := (find_all ["form"] soup).map formDesc
    buttons := (find_all ["button", "input"] soup).filterMap fun b =>
      if b.tag = "input" ∧ b.getAttrOpt "type" ≠ some "button" ∧
          b.getAttrOpt "type" ≠ some "submit" then none
      else some (buttonDesc b)
    inputs := (find_all ["input"] soup).map inputDesc
    selects := (find_all ["select"] soup).map selectDesc
    links := (find_all ["a"] soup).map linkDesc }

/-- Claim C3: the buttons inventory of `extract_html_structure` consists
exactly of the `<button>` elements together with the `<input>` elements
whose `type` attribute is `button` or `submit`, in document order; in
particular an `<input>` of any other type (text, absent type, ...) never
contributes a button descriptor. -/
theorem extract_buttons_claim (soup : List Elem) :
    (extract_html_structure soup).buttons =
      ((allElems soup).filter fun e =>
        (e.tag == "button") ||
          ((e.tag == "input") &&
            ((e.attrs.lookup "type" == some "button") ||
              (e.attrs.lookup "type" == some "submit")))).map buttonDesc := by
  show ((allElems soup).filter _).filterMap _ = _
  rw [← List.filterMap_eq_map, List.filterMap_filter, List.filterMap_filter]
  apply List.filterMap_congr
  intro e _
  by_cases hb : e.tag = "button"
  · simp [hb, Elem.getAttrOpt]
  · by_cases hi : e.tag = "input"
    · by_cases hbt : e.attrs.lookup "type" = some "button"
      · simp [hb, hi, hbt, Elem.getAttrOpt]
      · by_cases hst : e.attrs.lookup "type" = some "submit"
        · simp [hb, hi, hbt, hst, Elem.getAttrOpt]
        · simp [hb, hi, hbt, hst, Elem.getAttrOpt]
    · simp [hb, hi]

/-- Claim C4 (amended): attribute lookups in `extract_html_structure`
never fail and default to the empty string (empty list for `class`) when
the attribute is absent, with one exception forced by the code: the
`type` lookup of the inputs inventory defaults to `text`
(selenium_generator.py line 56). The final conjunct records that every
descriptor in the inputs inventory arises from `inputDesc` applied to an
`<input>` element of the parse tree. -/
theorem attr_lookup_defaults (e : Elem) (soup : List Elem) :
    (e.attrs.lookup "type" = none → (inputDesc e).type_attr = "text") ∧
    (e.attrs.lookup "id" = none → (formDesc e).id = "") ∧
    (e.attrs.lookup "name" = none → (formDesc e).name = "") ∧
    (e.attrs.lookup "action" = none → (formDesc e).action = "") ∧
    (e.classes = none → (formDesc e).classes = []) ∧
    (e.attrs.lookup "id" = none → (buttonDesc e).id = "") ∧
    (e.attrs.lookup "name" = none → (buttonDesc e).name = "") ∧
    (e.classes = none → (buttonDesc e).classes = []) ∧
    (e.attrs.lookup "type" = none → (buttonDesc e).type_attr = "") ∧
    (e.tag ≠ "button" → e.attrs.lookup "value" = none → (buttonDesc e).text = "") ∧
    (e.attrs.lookup "id" = none → (inputDesc e).id = "") ∧
    (e.attrs.lookup "name" = none → (inputDesc e).name = "") ∧
    (e.classes = none → (inputDesc e).classes = []) ∧
    (e.attrs.lookup "placeholder" = none → (inputDesc e).placeholder = "") ∧
    (e.attrs.lookup "id" = none → (selectDesc e).id = "") ∧
    (e.attrs.lookup "name" = none → (selectDesc e).name = "") ∧
    (e.classes = none → (selectDesc e).classes = []) ∧
    (e.attrs.lookup "id" = none → (linkDesc e).id = "") ∧
    (e.classes = none → (linkDesc e).classes = []) ∧
    (e.attrs.lookup "href" = none → (linkDesc e).href = "") ∧
    (∀ d ∈ (extract_html_structure soup).inputs,
      ∃ x ∈ allElems soup, x.tag = "input" ∧ d = inputDesc x) := by
  have hclose : ∀ d ∈ (extract_html_structure soup).inputs,
      ∃ x ∈ allElems soup, x.tag = "input" ∧ d = inputDesc x := by
    intro d hd
    simp only [extract_html_structure, find_all, List.mem_map, List.mem_filter] at hd
    obtain ⟨x, ⟨hx, htag⟩, rfl⟩ := hd
    exact ⟨x, hx, by simpa using htag, rfl⟩
  refine ⟨?_, ?_, ?_, ?_, ?_, ?_, ?_, ?_, ?_, ?_, ?_, ?_, ?_, ?_, ?_, ?_, ?_, ?_, ?_,
      ?_, hclose⟩
  · intro h; simp [inputDesc, Elem.getAttr, h]
  · intro h; simp [formDesc, Elem.getAttr, h]
  · intro h; simp [formDesc, Elem.getAttr, h]
  · intro h; simp [formDesc, Elem.getAttr, h]
  · intro h; simp [formDesc, Elem.getClasses, h]
  · intro h; simp [buttonDesc, Elem.getAttr, h]
  · intro h; simp [buttonDesc, Elem.getAttr, h]
  · intro h; simp [buttonDesc, Elem.getClasses, h]
  · intro h; simp [buttonDesc, Elem.getAttr, h]
  · intro h1 h2; simp [buttonDesc, Elem.getAttr, h1, h2]
  · intro h; simp [inputDesc, Elem.getAttr, h]
  · intro h; simp [inputDesc, Elem.getAttr, h]
  · intro h; simp [inputDesc, Elem.getClasses, h]
  · intro h; simp [inputDesc, Elem.getAttr, h]
  · intro h; simp [selectDesc, Elem.getAttr, h]
  · intro h; simp [selectDesc, Elem.getAttr, h]
  · intro h; simp [selectDesc, Elem.getClasses, h]
  · intro h; simp [linkDesc, Elem.getAttr, h]
  · intro h; simp [linkDesc, Elem.getClasses, h]
  · intro h; simp [linkDesc, Elem.getAttr, h]

/-- Witness for C4: an element with no attributes at all has an absent
`type`, and its inputs-inventory descriptor carries the non-empty
default `text`. -/
theorem attr_lookup_defaults_witness :
    (inputDesc (Elem.mk "option" [] none "" [])).type_attr = "text" :=
  (attr_lookup_defaults (Elem.mk "option" [] none "" []) []).1 rfl

/-- Counterexample to C4 as stated: an `<input>` with no attributes has
an absent `type` attribute, yet its descriptor in the inputs inventory
carries the non-empty default `text`, so not every attribute lookup
defaults to the empty string. -/
theorem attr_lookup_defaults_counterexample :
    (extract_html_structure [Elem.mk "input" [] none "" []]).inputs =
      [{ id := "", name := "", classes := [], type_attr := "text", placeholder := "" }] ∧
    (inputDesc (Elem.mk "input" [] none "" [])).type_attr ≠ "" := by
  constructor
  · simp [extract_html_structure, find_all, allElems, inputDesc, Elem.getAttr,
      Elem.getClasses, Elem.tag, Elem.attrs, Elem.classes]
  · decide

/-- Document passed to `VectorStore.add_documents`: a dict with `content`
and abstract `metadata` (`μ`). -/
structure VsDocument (μ : Type) where
  content : String
  metadata : μ
deriving DecidableEq

/-- Point uploaded to the Qdrant collection (vector_store.py lines
156-164): identifier string, embedding vector (abstract type `ν`) and the
payload fields `content` and `metadata`. -/
structure UploadPoint (μ ν : Type) where
  id : String
  vector : ν
  content : String
  metadata : μ
deriving DecidableEq

/-- Point list built by `add_documents` (vector_store.py lines 155-165):
documents zipped with their embeddings, each given an identifier
(`str(uuid.uuid4())` in the source, supplied here by `idGen` indexed by
the enumeration counter). -/
def mkUploadPoints {μ ν : Type} (idGen : Nat → String)
    (documents : List (VsDocument μ)) (embeddings : List ν) : List (UploadPoint μ ν) :=
  (documents.zip embeddings).enum.map fun ie =>
    { id := idGen ie.1, vector := ie.2.2, content := ie.2.1.content,
      metadata := ie.2.1.metadata }

/-- Batches of the upload loop `for i in range(0, len(points), batch_size)`
with `batch = points[i:i+batch_size]` and `batch_size = 100`
(vector_store.py lines 168-170). -/
def batches100 {α : Type} : List α → List (List α)
  | [] => []
  | x :: xs => ((x :: xs).take 100) :: batches100 ((x :: xs).drop 100)
termination_by l => l.length
decreasing_by
  simp
  omega

/-- Sequential upload of batches against a fallible client: `upsert`
returns the updated store on success and `none` when the request raises.
A raised batch is caught by the `except` of `add_documents`, which stops
the loop and reports failure, leaving the store as the previous batches
left it. -/
def uploadBatches {α σ : Type} (upsert : List α → σ → Option σ) :
    List (List α) → σ → σ × Bool
  | [], s => (s, true)
  | b :: bs, s =>
    match upsert b s with
    | some s2 => uploadBatches upsert bs s2
    | none => (s, false)

/-- Embedding of `VectorStore.add_documents` (vector_store.py lines
135-181). The sentence-transformer encoder is the parameter `encode`
(returning `[]` on failure, as `generate_embeddings` does), the Qdrant
client upsert is the fallible `upsert`, and the store state `σ` is
threaded explicitly. Empty input and embedding failure return failure
without touching the store. -/
def add_documents {μ ν σ : Type} (upsert : List (UploadPoint μ ν) → σ → Option σ)
    (encode : List String → List ν) (idGen : Nat → String)
    (documents : List (VsDocument μ)) (s : σ) : σ × Bool :=
  if documents.isEmpty then (s, false)
  else
    let texts := documents.map (fun d => d.content)
    let embeddings := encode texts
    if embeddings.isEmpty then (s, false)
    else uploadBatches upsert (batches100 (mkUploadPoints idGen documents embeddings)) s

/-- Successful sequential commit of a list of batches, used to describe
the store state reached just before a failing batch. -/
def runBatches {α σ : Type} (upsert : List α → σ → Option σ) :
    List (List α) → σ → Option σ
  | [], s => some s
  | b :: bs, s =>
    match upsert b s with
    | some s2 => runBatches upsert bs s2
    | none => none

/-- Every batch produced by the upload loop holds at most 100 points. -/
theorem batches100_le {α : Type} (l : List α) : ∀ b ∈ batches100 l, b.length ≤ 100 := by
  have H : ∀ (n : Nat) (l : List α), l.length ≤ n → ∀ b ∈ batches100 l, b.length ≤ 100 := by
    intro n
    induction n with
    | zero =>
      intro l h
      have hl : l = [] := by cases l <;> simp_all
      simp [hl, batches100]
    | succ n ih =>
      intro l h
      cases l with
      | nil => simp [batches100]
      | cons x xs =>
        rw [batches100]
        intro b hb
        rcases List.mem_cons.mp hb with hb | hb
        · subst hb; simp
        · exact ih ((x :: xs).drop 100) (by simp at h ⊢; omega) b hb
  exact H l.length l le_rfl

/-- The upload batches partition the point list: concatenated in order
they give back exactly the points. -/
theorem batches100_flatten {α : Type} (l : List α) : (batches100 l).flatten = l := by
  have H : ∀ (n : Nat) (l : List α), l.length ≤ n → (batches100 l).flatten = l := by
    intro n
    induction n with
    | zero =>
      intro l h
      have hl : l = [] := by cases l <;> simp_all
      simp [hl, batches100]
    | succ n ih =>
      intro l h
      cases l with
      | nil => simp [batches100]
      | cons x xs =>
        rw [batches100]
        simp only [List.flatten_cons]
        rw [ih ((x :: xs).drop 100) (by simp at h ⊢; omega)]
        exact List.take_append_drop 100 (x :: xs)
  exact H l.length l le_rfl

/-- When the batches before `fb` commit successfully and `fb` raises, the
upload loop stops at `fb`: the result is failure with the store exactly
as the committed prefix left it, independently of the remaining
batches. -/
theorem uploadBatches_fail {α σ : Type} (upsert : List α → σ → Option σ)
    (fb : List α) (sj : σ) (hfail : upsert fb sj = none) :
    ∀ (pre rest : List (List α)) (s : σ), runBatches upsert pre s = some sj →
      uploadBatches upsert (pre ++ fb :: rest) s = (sj, false) := by
  intro pre
  induction pre with
  | nil =>
    intro rest s h
    simp [runBatches] at h
    subst h
    simp [uploadBatches, hfail]
  | cons b bs ih =>
    intro rest s h
    simp only [runBatches] at h
    cases hu : upsert b s with
    | none => rw [hu] at h; simp at h
    | some s2 =>
      rw [hu] at h
      simp only [List.cons_append, uploadBatches, hu]
      exact ih rest s2 h

/-- Claim C6: `add_documents` writes its points in batches of at most 100
covering all points; when the upsert of some batch fails, no later batch
is attempted (the outcome does not depend on the remaining batches), the
call reports failure, and the store keeps exactly the batches committed
before the failing one. -/
theorem add_documents_claim {μ ν σ : Type}
    (upsert : List (UploadPoint μ ν) → σ → Option σ)
    (encode : List String → List ν) (idGen : Nat → String)
    (documents : List (VsDocument μ)) (s sj : σ)
    (pre rest : List (List (UploadPoint μ ν))) (fb : List (UploadPoint μ ν))
    (hdocs : documents.isEmpty = false)
    (hemb : (encode (documents.map fun d => d.content)).isEmpty = false)
    (hsplit : batches100 (mkUploadPoints idGen documents
        (encode (documents.map fun d => d.content))) = pre ++ fb :: rest)
    (hpre : runBatches upsert pre s = some sj)
    (hfail : upsert fb sj = none) :
    add_documents upsert encode idGen documents s = (sj, false) ∧
    (∀ rest2, uploadBatches upsert (pre ++ fb :: rest2) s = (sj, false)) ∧
    (∀ b ∈ batches100 (mkUploadPoints idGen documents
        (encode (documents.map fun d => d.content))), b.length ≤ 100) ∧
    (batches100 (mkUploadPoints idGen documents
        (encode (documents.map fun d => d.content)))).flatten =
      mkUploadPoints idGen documents (encode (documents.map fun d => d.content)) := by
  refine ⟨?_, ?_, batches100_le _, batches100_flatten _⟩
  · have hrun := uploadBatches_fail upsert fb sj hfail pre rest s hpre
    simp only [add_documents, hdocs, hemb, Bool.false_eq_true, if_false]
    rw [hsplit]
    exact hrun
  · intro rest2
    exact uploadBatches_fail upsert fb sj hfail pre rest2 s hpre

/-- Witness for C6: one document, an embedder returning one vector and a
client whose upsert always raises; the call fails and the store (a bare
counter here) is untouched. -/
theorem add_documents_claim_witness :
    add_documents (fun (_ : List (UploadPoint Nat Nat)) (_ : Nat) => none)
      (fun _ => [7]) (fun _ => "id") [{ content := "a", metadata := 0 }] 0 = (0, false) :=
  (add_documents_claim (fun _ _ => none) (fun _ => [7]) (fun _ => "id")
      [{ content := "a", metadata := 0 }] 0 0 [] []
      [{ id := "id", vector := 7, content := "a", metadata := 0 }]
      rfl rfl (by simp [batches100, mkUploadPoints]) rfl rfl).1

/-- Unfiltered branch of `VectorStore.search` (vector_store.py lines
183-234 with `filter_dict=None`): `exec` is the fallible pipeline inside
the `try` (query embedding, Qdrant search call and result formatting)
given the built filter; with no filter dict the built filter is `None`,
and a raised exception returns the empty list because there is no filter
to drop. -/
def search_unfiltered {φ ρ ε : Type} (exec : Option φ → Except ε (List ρ)) : List ρ :=
  match exec none with
  | .ok rs => rs
  | .error _ => []

/-- Filter built by the inner `try` of `search` (vector_store.py lines
192-207): condition construction from the filter dict can itself raise,
in which case the search proceeds with no filter (`search_filter = None`).
The Qdrant condition builder is the parameter `buildF`. -/
def search_filter_of {δ φ ε : Type} (buildF : δ → Except ε φ) (fd : Option δ) : Option φ :=
  match fd with
  | none => none
  | some d =>
    match buildF d with
    | .ok f => some f
    | .error _ => none

/-- Embedding of `VectorStore.search` (vector_store.py lines 183-234).
On success the formatted results are returned. When the guarded pipeline
raises and a filter dict was supplied, the `except` branch re-enters
`search` with `filter_dict=None` (the `search_unfiltered` branch); when
no filter dict was supplied it returns the empty list. -/
def search {δ φ ρ ε : Type} (exec : Option φ → Except ε (List ρ))
    (buildF : δ → Except ε φ) (fd : Option δ) : List ρ :=
  match fd with
  | none => search_unfiltered exec
  | some d =>
    match exec (search_filter_of buildF (some d)) with
    | .ok rs => rs
    | .error _ => search_unfiltered exec

/-- Claim C7: a filtered search whose guarded pipeline raises is retried
exactly once without the filter and returns that retry's result; a
successful filtered search returns its own results without any retry;
and an unfiltered search that fails returns the empty list without being
retried (so the retry itself, failing again, yields the empty list). -/
theorem search_retry_claim {δ φ ρ ε : Type} (exec : Option φ → Except ε (List ρ))
    (buildF : δ → Except ε φ) :
    (∀ (d : δ) (e : ε), exec (search_filter_of buildF (some d)) = .error e →
      search exec buildF (some d) = search_unfiltered exec) ∧
    (∀ (d : δ) (rs : List ρ), exec (search_filter_of buildF (some d)) = .ok rs →
      search exec buildF (some d) = rs) ∧
    (∀ (e : ε), exec none = .error e → search exec buildF none = []) := by
  refine ⟨?_, ?_, ?_⟩
  · intro d e h
    simp [search, h]
  · intro d rs h
    simp [search, h]
  · intro e h
    simp [search, search_unfiltered, h]

/-- Witness for C7: a pipeline that always raises makes the filtered
search fall back to the unfiltered retry, which also raises and yields
the empty list. -/
theorem search_retry_claim_witness :
    search (fun (_ : Option Nat) => (Except.error 0 : Except Nat (List Nat)))
      (fun (_ : Nat) => Except.ok 5) (some 1) =
      search_unfiltered (fun (_ : Option Nat) => (Except.error 0 : Except Nat (List Nat))) :=
  (search_retry_claim (fun _ => Except.error 0) (fun _ => Except.ok 5)).1 1 0 rfl

/-- Collection-info dict returned by `VectorStore.get_collection_info`
(vector_store.py lines 236-271). The `vectors_count` and `status` keys
are optional because the non-200 branch (line 261) returns a dict
without them. -/
structure CollectionInfoDict where
  name : String
  points_count : Nat
  vectors_count : Option Nat
  status : Option String
deriving DecidableEq

/-- Parsed `result` object of a successful Qdrant collection-info
response: each field may be missing (`data.get('result', {})` then
`result.get(key, default)`). -/
structure QdrantResultObj where
  points_count : Option Nat
  vectors_count : Option Nat
  status : Option String
deriving DecidableEq

/-- Outcome of the raw HTTP request in `get_collection_info`: either a
response with a status code and a body whose JSON parse may itself raise,
or an exception anywhere inside the `try` (connection error, timeout). -/
inductive HttpOutcome (ε : Type) : Type where
  | response (status_code : Nat) (body : Except ε QdrantResultObj)
  | exn

/-- Embedding of `VectorStore.get_collection_info` (vector_store.py lines
236-271): on a 200 response with parsed body the fields are read with
defaults 0/0/unknown; on a 200 response whose `response.json()` raises,
control reaches the outer `except` which returns the zeroed/unknown
dict; on a non-200 response only `name` and `points_count: 0` are
returned; on any exception the zeroed/unknown dict is returned. The
function is total: no outcome raises. -/
def get_collection_info {ε : Type} (collection_name : String)
    (resp : HttpOutcome ε) : CollectionInfoDict :=
  match resp with
  | .exn =>
    { name := collection_name, points_count := 0, vectors_count := some 0,
      status := some "unknown" }
  | .response code body =>
    if code = 200 then
      match body with
      | .ok r =>
        { name := collection_name, points_count := r.points_count.getD 0,
          vectors_count := some (r.vectors_count.getD 0),
          status := some (r.status.getD "unknown") }
      | .error _ =>
        { name := collection_name, points_count := 0, vectors_count := some 0,
          status := some "unknown" }
    else
      { name := collection_name, points_count := 0, vectors_count := none,
        status := none }

/-- Claim C8 (amended): `get_collection_info` is total over every
transport outcome (it never raises), always reports the collection name,
and returns a points count of 0 on every failure path; the full
zeroed/`unknown` default dict is returned on the exception path and on a
200 response whose body fails to parse, while a non-200 response returns
a dict with points count 0 but no `status` and no `vectors_count` keys. -/
theorem get_collection_info_claim {ε : Type} (name : String)
    (resp : HttpOutcome ε) :
    ((get_collection_info name resp).name = name) ∧
    (get_collection_info name (.exn : HttpOutcome ε) =
      { name := name, points_count := 0, vectors_count := some 0,
        status := some "unknown" }) ∧
    (∀ (e : ε), get_collection_info name (.response 200 (.error e)) =
      { name := name, points_count := 0, vectors_count := some 0,
        status := some "unknown" }) ∧
    (∀ (code : Nat) (body : Except ε QdrantResultObj), code ≠ 200 →
      get_collection_info name (.response code body) =
        { name := name, points_count := 0, vectors_count := none,
          status := none }) := by
  refine ⟨?_, rfl, fun e => rfl, ?_⟩
  · cases resp with
    | exn => rfl
    | response code body =>
      by_cases hc : code = 200
      · cases body <;> simp [get_collection_info, hc]
      · simp [get_collection_info, hc]
  · intro code body hc
    simp [get_collection_info, hc]

/-- Witness for C8: a 404 response yields the dict with points count 0
and without `status`/`vectors_count` keys. -/
theorem get_collection_info_claim_witness :
    get_collection_info "qa_agent_docs"
        (.response 404 (.ok ⟨none, none, none⟩) : HttpOutcome Unit) =
      ⟨"qa_agent_docs", 0, none, none⟩ :=
  (get_collection_info_claim "qa_agent_docs"
      (.response 404 (.ok ⟨none, none, none⟩) : HttpOutcome Unit)).2.2.2 404
    (.ok ⟨none, none, none⟩) (by decide)

/-- Counterexample to C8 as stated: on a non-200 response (a transport
failure distinct from a raised exception) the returned dict has no
`status` key at all — in particular its status is not the string
`unknown` — because line 261 of vector_store.py returns only `name` and
`points_count`. -/
theorem get_collection_info_counterexample :
    (get_collection_info "qa_agent_docs"
        (.response 500 (.ok ⟨none, none, none⟩) : HttpOutcome Unit)).status = none ∧
    (none : Option String) ≠ some "unknown" := by
  constructor
  · rfl
  · decide

/-- Qdrant collection as far as `create_collection` observes it: a name,
the vector size fixed at creation, and its stored points (abstract
type π). -/
structure QdrantCollection (π : Type) where
  name : String
  vector_size : Nat
  points : List π
deriving DecidableEq

/-- State of the Qdrant server visible to `VectorStore.create_collection`:
the list of collections (vector_store.py reads it via
`client.get_collections()`). -/
structure StoreState (π : Type) where
  collections : List (QdrantCollection π)
deriving DecidableEq

/-- Destructive client calls issued by `create_collection`, recorded so
that the theorems can state that no deletion and no recreation happens. -/
inductive StoreOp : Type where
  | deleteColl (name : String)
  | createColl (name : String) (vector_size : Nat)
deriving DecidableEq

/-- Effect of `client.delete_collection(name)` on the server state. -/
def delete_collection {π : Type} (s : StoreState π) (name : String) : StoreState π :=
  ⟨s.collections.filter fun c => c.name != name⟩

/-- Effect of `client.create_collection(name, vectors_config)` on the
server state: a fresh empty collection with the given vector size. -/
def create_collection_raw {π : Type} (s : StoreState π) (name : String)
    (size : Nat) : StoreState π :=
  ⟨s.collections ++ [⟨name, size, []⟩]⟩

/-- Embedding of `VectorStore.create_collection` (vector_store.py lines
93-124) with all client calls succeeding: compute `collection_exists`
from the listed collections; when it exists and `force_recreate` holds,
delete it and clear the flag; when the flag is clear, probe the embedding
dimensionality (`probe_dim` models `len(test_embedding[0])`) and create
the collection; return `True`. The returned operation list logs the
destructive client calls performed. -/
def create_collection {π : Type} (probe_dim : Nat) (s : StoreState π)
    (collection_name : String) (force_recreate : Bool) :
    StoreState π × List StoreOp × Bool :=
  let collection_exists := s.collections.any fun c => c.name == collection_name
  let del := collection_exists && force_recreate
  let s1 := if del then delete_collection s collection_name else s
  let ops1 : List StoreOp := if del then [.deleteColl collection_name] else []
  let exists1 := if del then false else collection_exists
  if exists1 then (s1, ops1, true)
  else (create_collection_raw s1 collection_name probe_dim,
    ops1 ++ [.createColl collection_name probe_dim], true)

/-- Claim C9: when the collection already exists and `force_recreate` is
false, `create_collection` performs no deletion and no recreation
(empty operation log), reports success and leaves the server state — in
particular every stored point — unchanged; consequently calling it twice
without `force_recreate`, from any starting state, makes the second call
a no-op on the state of the first, so no points are lost. -/
theorem create_collection_idempotent {π : Type} (probe_dim : Nat)
    (s : StoreState π) (cname : String)
    (hex : (s.collections.any fun c => c.name == cname) = true) :
    create_collection probe_dim s cname false = (s, [], true) ∧
    (∀ s0 : StoreState π,
      create_collection probe_dim
          (create_collection probe_dim s0 cname false).1 cname false =
        ((create_collection probe_dim s0 cname false).1, [], true)) := by
  constructor
  · simp [create_collection, hex]
  · intro s0
    by_cases h0 : (s0.collections.any fun c => c.name == cname) = true
    · have h1 : create_collection probe_dim s0 cname false = (s0, [], true) := by
        simp [create_collection, h0]
      rw [h1]
      simp [create_collection, h0]
    · have h0f : (s0.collections.any fun c => c.name == cname) = false := by
        simpa using h0
      have h1 : create_collection probe_dim s0 cname false =
          (create_collection_raw s0 cname probe_dim,
            [.createColl cname probe_dim], true) := by
        simp [create_collection, h0f]
      rw [h1]
      have h2 : ((create_collection_raw s0 cname probe_dim).collections.any
          fun c => c.name == cname) = true := by
        simp [create_collection_raw]
      simp [create_collection, h2]

/-- Witness for C9: a server holding the collection with one stored
point; creating it again without `force_recreate` is a logged no-op. -/
theorem create_collection_idempotent_witness :
    create_collection 3 (⟨[⟨"qa_agent_docs", 3, [5]⟩]⟩ : StoreState Nat)
        "qa_agent_docs" false =
      ((⟨[⟨"qa_agent_docs", 3, [5]⟩]⟩ : StoreState Nat), [], true) :=
  (create_collection_idempotent 3 (⟨[⟨"qa_agent_docs", 3, [5]⟩]⟩ : StoreState Nat)
      "qa_agent_docs" (by decide)).1
